import Mathlib

/-!
Verification of the operator node abstraction layer of the terrier optimizer
(src/include/optimizer/operator_node_contents.h).

The header defines three pieces:
* the abstract capability interface `BaseOperatorNodeContents`, with default
  (virtual, overridable) `Hash` and `operator==` implementations;
* the typed adapter `OperatorNodeContents<T>`, which supplies per-kind static
  metadata (name, type tag) and the logical/physical classification;
* the value-semantic handle `Operator`, which owns at most one capability
  instance and forwards operations to it, with a checked downcast `As<T>`.

Shallow embedding notes.  A concrete operator kind is external to this core
(the operator catalog); we model its static part as a `ConcreteKind` record:
its C++ dynamic type identity (`typeid`), the static `name`/`type` metadata the
adapter reads, the logical/physical classification, and the virtual-dispatch
slots for `Hash` and `operator==` (`none` means the kind inherits the default
bodies from `BaseOperatorNodeContents`).  A capability instance is then a kind
together with its kind-specific fields, modelled as a list of naturals.

The bodies of the `Operator` member functions other than the copy constructor,
`As<T>` and `operator!=` live in a translation unit that is not part of the
excerpted source; those are modelled from the spec (each carries a doc comment
saying so) and the affected claims are settled against the spec model.
-/

namespace Terrier

/-- OpType is the closed optimizer-wide enumeration of operator kinds
(declared in optimizer/optimizer_defs.h, outside the excerpted source).
Modelled as a natural-number discriminant. -/
abbrev OpType := Nat

/-- common::hash_t (a 64-bit unsigned integer) modelled as a natural number
reduced modulo 2 to the 64. -/
abbrev HashT := Nat

namespace HashUtil

/-- Modelled from the spec: common/hash_util.h is not part of the excerpted
source.  HashUtil::Hash applied to an OpType value is a deterministic hash of
the tag; we model it as Fibonacci-style multiplicative hashing on 64 bits.
The claims below depend only on it being a function of the tag. -/
def Hash (t : OpType) : HashT := (t * 0x9E3779B97F4A7C15) % (2 ^ 64)

end HashUtil

/-- Static description of one concrete operator kind from the external
operator catalog, together with its virtual-dispatch behavior:
* `typeId` models the C++ dynamic type identity (`typeid`) of the concrete
  class;
* `strictSupers` lists the type identities of the concrete class's strict
  supertypes (its `OperatorNodeContents<T>` instantiation and
  `BaseOperatorNodeContents`); distinct classes have distinct `typeid`s, so a
  well-formed kind's own `typeId` never appears in this list;
* `name` and `tag` are the static metadata the typed adapter returns from
  `GetName`/`GetType`;
* `logical` records the side of the logical/physical partition the tag
  belongs to;
* `hashOverride`/`eqOverride` model the virtual-dispatch slots: `none` means
  the kind inherits the default bodies from `BaseOperatorNodeContents`
  (header lines 67-84), `some f` means the kind overrides the member with a
  function of the kind-specific fields. -/
structure ConcreteKind where
  typeId : Nat
  strictSupers : List Nat
  name : String
  tag : OpType
  logical : Bool
  hashOverride : Option (List Nat → HashT)
  eqOverride : Option (List Nat → List Nat → Bool)

/-- A capability instance: the polymorphic payload of one operator.  It
consists of its concrete kind (static metadata and dispatch table) and the
kind-specific fields it exclusively owns, modelled as a list of naturals. -/
structure BaseOperatorNodeContents where
  kind : ConcreteKind
  payload : List Nat

namespace BaseOperatorNodeContents

/-- GetType of the typed adapter (header line 114): returns the kind's static
type tag. -/
def GetType (s : BaseOperatorNodeContents) : OpType := s.kind.tag

/-- GetName of the typed adapter (header line 109): returns the kind's static
name. -/
def GetName (s : BaseOperatorNodeContents) : String := s.kind.name

/-- Modelled from the spec: the adapter's IsLogical body is not in the
excerpted source (header line 119 only declares it); per the spec it checks
the tag against the logical partition, recorded here in the kind. -/
def IsLogical (s : BaseOperatorNodeContents) : Bool := s.kind.logical

/-- Modelled from the spec: the adapter's IsPhysical body is not in the
excerpted source (header line 124 only declares it); per the spec the
classification is the mutually exclusive complement of IsLogical. -/
def IsPhysical (s : BaseOperatorNodeContents) : Bool := !s.kind.logical

/-- Virtual Hash (header lines 67-70).  A kind that overrides Hash dispatches
to its override; otherwise the default body runs:
OpType t = GetType(); return HashUtil::Hash(t). -/
def Hash (s : BaseOperatorNodeContents) : HashT :=
  match s.kind.hashOverride with
  | some f => f s.payload
  | none => HashUtil.Hash s.GetType

/-- Virtual equality (header line 77).  A kind that overrides operator==
dispatches to its override on the kind-specific fields; otherwise the default
body runs: GetType() == r.GetType(). -/
def beq (s r : BaseOperatorNodeContents) : Bool :=
  match s.kind.eqOverride with
  | some f => f s.payload r.payload
  | none => s.GetType == r.GetType

/-- Virtual inequality (header line 84): the negation of equality. -/
def bne (s r : BaseOperatorNodeContents) : Bool := !s.beq r

/-- Modelled from the spec: Copy (header line 36) is pure virtual, implemented
by each external concrete kind; the spec guarantees a deep, independent
duplicate, i.e. a distinct instance object carrying the same value.  In the
value world the duplicate is the same value; object identity and independence
are modelled separately by the store-based model below. -/
def Copy (s : BaseOperatorNodeContents) : BaseOperatorNodeContents := s

end BaseOperatorNodeContents

/-- The error raised by forwarding operations of an undefined handle
(spec section 7: a distinct, catchable undefined-operator error). -/
inductive OperatorError where
  | undefinedOperator
deriving DecidableEq

/-- The node handle (header lines 141-235): exclusively owns at most one
capability instance.  `contents_ = none` models a null unique_ptr, i.e. an
undefined handle. -/
structure Operator where
  contents_ : Option BaseOperatorNodeContents

namespace Operator

/-- Modelled from the spec: the default constructor's body (header line 146)
is not in the excerpted source; default construction produces an undefined
handle (a null unique_ptr). -/
def default : Operator := ⟨none⟩

/-- Modelled from the spec: the owning constructor's body (header line 152)
is not in the excerpted source; it transfers ownership of the given capability
instance into the handle. -/
def ofContents (c : BaseOperatorNodeContents) : Operator := ⟨some c⟩

/-- Modelled from the spec: IsDefined's body (header line 202) is not in the
excerpted source; it reports whether the handle owns an instance. -/
def IsDefined (op : Operator) : Bool := op.contents_.isSome

/-- Modelled from the spec: Accept's body (header line 168) is not in the
excerpted source; it dispatches the owned instance to the visitor's handler
for the instance's concrete kind, exactly once, and fails with the
undefined-operator error when the handle holds no instance.  The visitor is
modelled by the joint effect of its per-kind handlers on the dispatched
instance. -/
def Accept {α : Type} (op : Operator) (v : BaseOperatorNodeContents → α) :
    Except OperatorError α :=
  match op.contents_ with
  | some c => Except.ok (v c)
  | none => Except.error OperatorError.undefinedOperator

/-- Modelled from the spec: GetName's body (header line 173) is not in the
excerpted source; it forwards to the owned instance and fails with the
undefined-operator error when the handle holds no instance. -/
def GetName (op : Operator) : Except OperatorError String :=
  match op.contents_ with
  | some c => Except.ok c.GetName
  | none => Except.error OperatorError.undefinedOperator

/-- Modelled from the spec: GetType's body (header line 178) is not in the
excerpted source; it forwards to the owned instance and fails with the
undefined-operator error when the handle holds no instance. -/
def GetType (op : Operator) : Except OperatorError OpType :=
  match op.contents_ with
  | some c => Except.ok c.GetType
  | none => Except.error OperatorError.undefinedOperator

/-- Modelled from the spec: Hash's body (header line 183) is not in the
excerpted source; it forwards to the owned instance and fails with the
undefined-operator error when the handle holds no instance. -/
def Hash (op : Operator) : Except OperatorError HashT :=
  match op.contents_ with
  | some c => Except.ok c.Hash
  | none => Except.error OperatorError.undefinedOperator

/-- Modelled from the spec: IsLogical's body (header line 207) is not in the
excerpted source; it forwards to the owned instance and fails with the
undefined-operator error when the handle holds no instance. -/
def IsLogical (op : Operator) : Except OperatorError Bool :=
  match op.contents_ with
  | some c => Except.ok c.IsLogical
  | none => Except.error OperatorError.undefinedOperator

/-- Modelled from the spec: IsPhysical's body (header line 212) is not in the
excerpted source; it forwards to the owned instance and fails with the
undefined-operator error when the handle holds no instance. -/
def IsPhysical (op : Operator) : Except OperatorError Bool :=
  match op.contents_ with
  | some c => Except.ok c.IsPhysical
  | none => Except.error OperatorError.undefinedOperator

/-- Modelled from the spec: operator== at the handle level (header line 190,
body not in the excerpted source).  Per spec section 4.3 it delegates to the
owned instance's equality when both handles are defined; two undefined
handles are equal to each other and an undefined handle is not equal to any
defined handle. -/
def beq (a b : Operator) : Bool :=
  match a.contents_, b.contents_ with
  | some x, some y => x.beq y
  | none, none => true
  | _, _ => false

/-- Handle-level operator!= (header line 197, defined inline in the source):
the negation of operator==. -/
def bne (a b : Operator) : Bool := !a.beq b

/-- Checked downcast As of the handle (header lines 219-228, defined inline in
the source): when the handle owns an instance whose dynamic type identity
(typeid of the dereferenced contents) equals the requested concrete type T,
return the owned instance; in every other case, the undefined handle included,
return null. -/
def As (op : Operator) (T : Nat) : Option BaseOperatorNodeContents :=
  match op.contents_ with
  | some n => if n.kind.typeId == T then some n else none
  | none => none

/-- The dynamic type identity of the owned instance, when defined. -/
def dynTypeId (op : Operator) : Option Nat :=
  op.contents_.map (fun n => n.kind.typeId)

/-- Copy constructor of the handle (header line 163, defined inline in the
source): contents_(op.contents_->Copy()).  The source dereferences contents_
unconditionally; on an undefined handle (null unique_ptr) this is a null
dereference, modelled as `none`.  On a defined handle it owns a fresh copy of
the instance. -/
def copyCtor (op : Operator) : Option Operator :=
  match op.contents_ with
  | some c => some ⟨some c.Copy⟩
  | none => none

end Operator

/-- std::hash specialized for BaseOperatorNodeContents (header lines 243-261):
its call operator returns s.Hash(). -/
def stdHashBaseOperatorNodeContents (s : BaseOperatorNodeContents) : HashT :=
  s.Hash

/-!
Store-based ownership model.  The value-level `Operator` above cannot express
object identity, which the copy-independence guarantee is about (the source
handle owns its instance through a unique_ptr, and the copy constructor
allocates a fresh instance).  Here instances live in a store addressed by
allocation order; a handle owns the address of its instance, exclusively; the
copy constructor allocates the duplicate at a fresh address; a mutation is an
update of the store at one address.
-/

/-- The store of allocated capability instances, addressed by index in
allocation order. -/
abbrev Store := List BaseOperatorNodeContents

/-- A node handle in the store model: it owns the address of its capability
instance, or no address when undefined. -/
structure OperatorH where
  contents_ : Option Nat

/-- Dereference a handle in a store: the instance it owns, if any. -/
def OperatorH.deref (st : Store) (h : OperatorH) : Option BaseOperatorNodeContents :=
  match h.contents_ with
  | some a => st[a]?
  | none => none

/-- Handle equality in the store model: the same delegation as Operator.beq,
reading the owned instances from the store. -/
def OperatorH.beqH (st : Store) (a b : OperatorH) : Bool :=
  match a.deref st, b.deref st with
  | some x, some y => x.beq y
  | none, none => true
  | _, _ => false

/-- Handle GetType in the store model: the owned instance's tag, if any. -/
def OperatorH.getTypeH (st : Store) (h : OperatorH) : Option OpType :=
  (h.deref st).map BaseOperatorNodeContents.GetType

/-- Copy construction in the store model (header line 163): on a defined
handle, allocate contents_->Copy() at a fresh address and return the new
store together with the handle owning the fresh address; on an undefined
handle the source dereferences null, modelled as `none`. -/
def copyConstructH (st : Store) (h : OperatorH) : Option (Store × OperatorH) :=
  match h.contents_ with
  | none => none
  | some a =>
    match st[a]? with
    | none => none
    | some c => some (st ++ [c.Copy], ⟨some st.length⟩)

/-- Mutation of the instance stored at one address: replace the
kind-specific state of the instance allocated there. -/
def mutateAt (st : Store) (a : Nat)
    (f : BaseOperatorNodeContents → BaseOperatorNodeContents) : Store :=
  match st[a]? with
  | some c => st.set a (f c)
  | none => st

/-!
Sample concrete kinds and instances, used by the witness theorems.  They model
catalog entries that inherit the default Hash and equality of
BaseOperatorNodeContents: type identity 0 stands for the typeid of
BaseOperatorNodeContents itself, and each kind lists its adapter instantiation
and the base class as strict supertypes.
-/

/-- A sample field-less-dispatch logical kind with tag 10 that inherits the
default Hash and equality. -/
def sampleKindA : ConcreteKind :=
  ⟨1, [0, 101], "LogicalGet", 10, true, none, none⟩

/-- A second sample kind with the same tag 10, distinct dynamic type, also
inheriting the defaults. -/
def sampleKindB : ConcreteKind :=
  ⟨2, [0, 102], "PhysicalGet", 10, false, none, none⟩

/-- A sample kind with a different tag 11, inheriting the defaults. -/
def sampleKindC : ConcreteKind :=
  ⟨3, [0, 103], "LogicalJoin", 11, true, none, none⟩

/-- An instance of sampleKindA with kind-specific fields [3, 4]. -/
def instA : BaseOperatorNodeContents := ⟨sampleKindA, [3, 4]⟩

/-- Another instance of sampleKindA with different kind-specific fields. -/
def instA2 : BaseOperatorNodeContents := ⟨sampleKindA, [5]⟩

/-- An instance of sampleKindB. -/
def instB : BaseOperatorNodeContents := ⟨sampleKindB, []⟩

/-- An instance of sampleKindC. -/
def instC : BaseOperatorNodeContents := ⟨sampleKindC, [7]⟩

/-- A sample visitor effect: report the tag of the instance dispatched to the
handler. -/
def sampleVisitor : BaseOperatorNodeContents → Nat :=
  fun c => c.GetType

/-- A sample mutation of kind-specific state: prepend 99 to the fields. -/
def sampleMutation : BaseOperatorNodeContents → BaseOperatorNodeContents :=
  fun c => ⟨c.kind, 99 :: c.payload⟩

/-- C1: for every pair of defined handles whose owned instances inherit the
default Hash and the default equality of BaseOperatorNodeContents, handle
equality implies equal handle hashes: both defaults reduce to the owned
instance's type tag. -/
theorem C1_default_hash_eq_consistency (a b : Operator)
    (x y : BaseOperatorNodeContents)
    (hax : a.contents_ = some x) (hby : b.contents_ = some y)
    (hhx : x.kind.hashOverride = none) (hhy : y.kind.hashOverride = none)
    (hex : x.kind.eqOverride = none)
    (heq : a.beq b = true) :
    a.Hash = b.Hash := by
  simp only [Operator.beq, hax, hby, BaseOperatorNodeContents.beq, hex] at heq
  have htag : x.GetType = y.GetType := by
    simpa using heq
  simp only [Operator.Hash, hax, hby, BaseOperatorNodeContents.Hash, hhx, hhy,
    htag]

/-- C1 witness: the pair of handles over instA and instA2, two instances of
the same default-dispatch kind carrying different kind-specific fields. -/
theorem C1_default_hash_eq_consistency_witness :
    Operator.beq ⟨some instA⟩ ⟨some instA2⟩ = true ∧
    Operator.Hash ⟨some instA⟩ = Operator.Hash ⟨some instA2⟩ :=
  ⟨rfl, C1_default_hash_eq_consistency ⟨some instA⟩ ⟨some instA2⟩ instA instA2
    rfl rfl rfl rfl rfl rfl⟩

/-- C2: As returns a present result exactly when the handle is defined and
the owned instance's dynamic type identity equals the requested concrete
type; the downcast is a total function, so every other case, the undefined
handle included, yields the absent result rather than a failure. -/
theorem C2_as_checked_downcast (op : Operator) (T : Nat) :
    (op.As T).isSome = true ↔
      (op.IsDefined = true ∧ op.dynTypeId = some T) := by
  cases hc : op.contents_ with
  | none => simp [Operator.As, Operator.IsDefined, Operator.dynTypeId, hc]
  | some n =>
    simp only [Operator.As, Operator.IsDefined, Operator.dynTypeId, hc,
      Option.isSome_some, Option.map_some, Option.some.injEq, true_and]
    by_cases h : n.kind.typeId = T
    · simp [h]
    · simp [h, beq_eq_false_iff_ne.mpr h]

/-- C2 witness: the downcast of a handle owning instA probed at instA's own
dynamic type identity. -/
theorem C2_as_checked_downcast_witness :
    (Operator.As ⟨some instA⟩ 1).isSome = true ↔
      (Operator.IsDefined ⟨some instA⟩ = true ∧
       Operator.dynTypeId ⟨some instA⟩ = some 1) :=
  C2_as_checked_downcast ⟨some instA⟩ 1

/-- C3 counterexample: equality applied to two undefined handles returns the
value true; it does not fail with the undefined-operator error, refuting the
claim's inclusion of equality among the operations that fail on an undefined
handle (spec section 4.3 defines equality on undefined handles totally). -/
theorem C3_counterexample : Operator.beq ⟨none⟩ ⟨none⟩ = true := rfl

/-- C3 (amended): on an undefined handle each of Accept, GetName, GetType,
Hash, IsLogical and IsPhysical fails with the distinct, catchable
undefined-operator error; equality does not fail: an undefined handle
compares equal to exactly the undefined handles. -/
theorem C3_undefined_forwarding_fails (h b : Operator)
    (v : BaseOperatorNodeContents → Nat) (hu : h.IsDefined = false) :
    h.Accept v = Except.error OperatorError.undefinedOperator ∧
    h.GetName = Except.error OperatorError.undefinedOperator ∧
    h.GetType = Except.error OperatorError.undefinedOperator ∧
    h.Hash = Except.error OperatorError.undefinedOperator ∧
    h.IsLogical = Except.error OperatorError.undefinedOperator ∧
    h.IsPhysical = Except.error OperatorError.undefinedOperator ∧
    h.beq b = !b.IsDefined := by
  have hc : h.contents_ = none := by
    cases hcc : h.contents_ with
    | none => rfl
    | some c => rw [Operator.IsDefined, hcc] at hu; simp at hu
  cases hb : b.contents_ with
  | none =>
    simp [Operator.Accept, Operator.GetName, Operator.GetType, Operator.Hash,
      Operator.IsLogical, Operator.IsPhysical, Operator.beq,
      Operator.IsDefined, hc, hb]
  | some c =>
    simp [Operator.Accept, Operator.GetName, Operator.GetType, Operator.Hash,
      Operator.IsLogical, Operator.IsPhysical, Operator.beq,
      Operator.IsDefined, hc, hb]

/-- C3 witness: the default-constructed handle, probed with a sample visitor
and compared against a defined handle. -/
theorem C3_undefined_forwarding_fails_witness :
    Operator.IsDefined ⟨none⟩ = false ∧
    (Operator.Accept ⟨none⟩ sampleVisitor =
        Except.error OperatorError.undefinedOperator ∧
     Operator.GetName ⟨none⟩ = Except.error OperatorError.undefinedOperator ∧
     Operator.GetType ⟨none⟩ = Except.error OperatorError.undefinedOperator ∧
     Operator.Hash ⟨none⟩ = Except.error OperatorError.undefinedOperator ∧
     Operator.IsLogical ⟨none⟩ = Except.error OperatorError.undefinedOperator ∧
     Operator.IsPhysical ⟨none⟩ = Except.error OperatorError.undefinedOperator ∧
     Operator.beq ⟨none⟩ ⟨some instB⟩ = !Operator.IsDefined ⟨some instB⟩) :=
  ⟨rfl, C3_undefined_forwarding_fails ⟨none⟩ ⟨some instB⟩ sampleVisitor rfl⟩

/-- C4: when the left instance's kind does not override equality, the default
operator== compares exactly the two type tags, regardless of any
kind-specific fields. -/
theorem C4_default_eq_tag_only (s r : BaseOperatorNodeContents)
    (h : s.kind.eqOverride = none) :
    s.beq r = (s.GetType == r.GetType) := by
  simp only [BaseOperatorNodeContents.beq, h]

/-- C4 witness: instA and instA2 share a tag but differ in fields, and the
default equality deems them equal; instA and instC differ in tag and are
unequal. -/
theorem C4_default_eq_tag_only_witness :
    instA.kind.eqOverride = none ∧
    instA.beq instA2 = (instA.GetType == instA2.GetType) ∧
    instA.beq instC = (instA.GetType == instC.GetType) :=
  ⟨rfl, C4_default_eq_tag_only instA instA2 rfl,
    C4_default_eq_tag_only instA instC rfl⟩

/-- C5: when the kind does not override Hash, the default Hash is exactly the
hash of the type tag alone; no other field is folded in. -/
theorem C5_default_hash_tag_only (s : BaseOperatorNodeContents)
    (h : s.kind.hashOverride = none) :
    s.Hash = HashUtil.Hash s.GetType := by
  simp only [BaseOperatorNodeContents.Hash, h]

/-- C5 witness: instA, whose kind inherits the default Hash. -/
theorem C5_default_hash_tag_only_witness :
    instA.kind.hashOverride = none ∧
    instA.Hash = HashUtil.Hash instA.GetType :=
  ⟨rfl, C5_default_hash_tag_only instA rfl⟩

/-- C6: copy construction of a defined handle allocates the owned instance's
deep duplicate at a fresh address; the copy compares equal to the original
and carries the same type tag, and any mutation applied at the copy's
address leaves the instance owned by the original handle unchanged.  The
equality conjunct assumes the owned instance's kind deems an exact duplicate
equal to the original, which is the consistency contract the spec imposes on
every concrete kind (and which the default equality satisfies). -/
theorem C6_copy_independence (st : Store) (a : Nat)
    (c : BaseOperatorNodeContents)
    (f : BaseOperatorNodeContents → BaseOperatorNodeContents)
    (hget : st[a]? = some c) (hrefl : c.beq c = true) :
    copyConstructH st ⟨some a⟩ = some (st ++ [c.Copy], ⟨some st.length⟩) ∧
    OperatorH.beqH (st ++ [c.Copy]) ⟨some a⟩ ⟨some st.length⟩ = true ∧
    OperatorH.getTypeH (st ++ [c.Copy]) ⟨some a⟩ = some c.GetType ∧
    OperatorH.getTypeH (st ++ [c.Copy]) ⟨some st.length⟩ = some c.GetType ∧
    OperatorH.deref (mutateAt (st ++ [c.Copy]) st.length f) ⟨some a⟩ = some c := by
  have ha : a < st.length := (List.getElem?_eq_some_iff.mp hget).1
  have hane : a ≠ st.length := Nat.ne_of_lt ha
  have hderef_a : (st ++ [c.Copy])[a]? = some c := by
    rw [List.getElem?_append]; simp [ha, hget]
  have hderef_new : (st ++ [c.Copy])[st.length]? = some c.Copy :=
    List.getElem?_concat_length st c.Copy
  refine ⟨?_, ?_, ?_, ?_, ?_⟩
  · simp only [copyConstructH, hget]
  · simp only [OperatorH.beqH, OperatorH.deref, hderef_a, hderef_new]
    exact hrefl
  · simp only [OperatorH.getTypeH, OperatorH.deref, hderef_a]
    rfl
  · simp only [OperatorH.getTypeH, OperatorH.deref, hderef_new]
    rfl
  · have hmut : mutateAt (st ++ [c.Copy]) st.length f =
        (st ++ [c.Copy]).set st.length (f c.Copy) := by
      simp only [mutateAt, hderef_new]
    simp only [OperatorH.deref, hmut, List.getElem?_set_ne (Ne.symm hane),
      hderef_a]

/-- C6 witness: the one-instance store holding instA, copied and then mutated
through the copy with the sample mutation. -/
theorem C6_copy_independence_witness :
    ([instA] : Store)[0]? = some instA ∧ instA.beq instA = true ∧
    (copyConstructH [instA] ⟨some 0⟩ =
        some ([instA] ++ [instA.Copy], ⟨some (List.length [instA])⟩) ∧
     OperatorH.beqH ([instA] ++ [instA.Copy]) ⟨some 0⟩
        ⟨some (List.length [instA])⟩ = true ∧
     OperatorH.getTypeH ([instA] ++ [instA.Copy]) ⟨some 0⟩ =
        some instA.GetType ∧
     OperatorH.getTypeH ([instA] ++ [instA.Copy])
        ⟨some (List.length [instA])⟩ = some instA.GetType ∧
     OperatorH.deref
        (mutateAt ([instA] ++ [instA.Copy]) (List.length [instA])
          sampleMutation) ⟨some 0⟩ = some instA) :=
  ⟨rfl, rfl, C6_copy_independence [instA] 0 instA sampleMutation rfl rfl⟩

/-- C7: two undefined handles compare equal, and a defined handle never
compares equal to an undefined one, in either order. -/
theorem C7_undefined_equality (a b : Operator) :
    (a.IsDefined = false → b.IsDefined = false → a.beq b = true) ∧
    (a.IsDefined ≠ b.IsDefined → a.beq b = false) := by
  refine ⟨?_, ?_⟩ <;>
  cases ha : a.contents_ <;> cases hb : b.contents_ <;>
    simp [Operator.beq, Operator.IsDefined, ha, hb]

/-- C7 witness: two undefined handles are equal; an undefined and a defined
handle are unequal in both orders. -/
theorem C7_undefined_equality_witness :
    Operator.beq ⟨none⟩ ⟨none⟩ = true ∧
    Operator.beq ⟨none⟩ ⟨some instA⟩ = false ∧
    Operator.beq ⟨some instA⟩ ⟨none⟩ = false :=
  ⟨(C7_undefined_equality ⟨none⟩ ⟨none⟩).1 rfl rfl,
   (C7_undefined_equality ⟨none⟩ ⟨some instA⟩).2 (by decide),
   (C7_undefined_equality ⟨some instA⟩ ⟨none⟩).2 (by decide)⟩

/-- C8: evaluation of the copy constructor at the failing input.  The source
initializes the new handle with op.contents_ minus greater than Copy()
unconditionally (header line 163), so copy construction from an undefined
handle dereferences a null unique_ptr (modelled as the none outcome) instead
of succeeding as the claim requires. -/
theorem C8_copy_ctor_null_deref : Operator.copyCtor ⟨none⟩ = none := rfl

/-- C9: the std::hash specialization for BaseOperatorNodeContents maps every
capability instance to exactly its Hash() value, making instances usable as
keys of standard hash-based containers. -/
theorem C9_std_hash_interop (s : BaseOperatorNodeContents) :
    stdHashBaseOperatorNodeContents s = s.Hash := rfl

/-- C10: the checked downcast demands exact dynamic-type identity: for a
handle owning an instance of a concrete kind, As probed at the identity of
any strict supertype of that kind (the base interface or the adapter
instantiation) returns the absent result, because distinct classes have
distinct type identities and As compares identities for equality, not for
subtype compatibility. -/
theorem C10_as_rejects_supertypes (n : BaseOperatorNodeContents) (S : Nat)
    (hsup : S ∈ n.kind.strictSupers)
    (hwf : n.kind.typeId ∉ n.kind.strictSupers) :
    Operator.As ⟨some n⟩ S = none := by
  have hne : n.kind.typeId ≠ S := fun he => hwf (he ▸ hsup)
  simp [Operator.As, hne]

/-- C10 witness: instA's kind has dynamic type identity 1 and lists identity
0 (the base capability interface) among its strict supertypes; the downcast
of a handle owning instA probed at 0 is absent. -/
theorem C10_as_rejects_supertypes_witness :
    (0 ∈ instA.kind.strictSupers) ∧
    (instA.kind.typeId ∉ instA.kind.strictSupers) ∧
    Operator.As ⟨some instA⟩ 0 = none :=
  ⟨by decide, by decide,
    C10_as_rejects_supertypes instA 0 (by decide) (by decide)⟩

end Terrier
